import Mathlib

/-!
Verification of the SLR screening core (`backend/app/core/slr_pipeline.py` and
`backend/app/core/agent_controller.py`) against its natural-language
specification.

The embedding is shallow: Python dataclasses become Lean structures, the
screening methods become pure functions, Python `float` arithmetic on
confidences is modelled by exact rationals (`ℚ`), Python `int` by `ℤ`, and
Python's truthiness tests on the optional plugin arguments by `Option`.
All definitions are executable, so concrete runs can be settled by `decide`
or `rfl` (rational arithmetic by `norm_num`).
-/

set_option linter.unusedVariables false
set_option maxRecDepth 4000

/-- Screening decision layers (`DecisionLayer`, slr_pipeline.py lines 10-15). -/
inductive DecisionLayer where
  | rules
  | ml
  | bert
  | human
deriving DecidableEq, Repr

/-- An input study record.  `screen_studies` consumes plain dicts and reads
the keys `pmid`, `title` and `abstract` with `.get`, which yields `None` for a
missing key; hence every field is optional. -/
structure Study where
  pmid : Option String
  title : Option String
  abstract : Option String
deriving DecidableEq, Repr

/-- Screening criteria.  `screen_studies` receives a dict with keys `disease`
and `study_type` (routes_slr.py line 172); `_screen_rules` takes it as a
parameter but never reads it. -/
structure Criteria where
  disease : Option String
  study_type : Option String
deriving DecidableEq, Repr

/-- `ScreeningDecision` dataclass (slr_pipeline.py lines 17-27): a decision
with provenance.  `decision` is the string "INCLUDE" or "EXCLUDE";
`confidence` is a float, modelled exactly as a rational. -/
structure ScreeningDecision where
  pmid : Option String
  title : Option String
  abstract : Option String
  decision : String
  confidence : ℚ
  layer : DecisionLayer
  reasoning : String
  prisma_stage : String
deriving DecidableEq, Repr

/-- `SLRMetrics` dataclass (slr_pipeline.py lines 29-43).  These are all the
fields the class has; in particular there is no field marking which metrics
mode produced the value. -/
structure SLRMetrics where
  total_retrieved : Int
  total_screened : Int
  total_included : Int
  total_excluded : Int
  precision : ℚ
  «recall» : ℚ
  f1_score : ℚ
  accuracy : ℚ
  true_positives : Int
  false_positives : Int
  true_negatives : Int
  false_negatives : Int
deriving DecidableEq, Repr

/-- Python's `x or ''` normalisation applied to an optional text field
(slr_pipeline.py lines 105-106): `None` (and the already-falsy empty string)
become the empty string. -/
def orEmpty : Option String → String
  | some s => s
  | none => ""

/-- ASCII lower-casing of one character, as `str.lower()` acts on the ASCII
texts screened here. -/
def toLowerChar (c : Char) : Char :=
  if 65 ≤ c.toNat ∧ c.toNat ≤ 90 then Char.ofNat (c.toNat + 32) else c

/-- Python's `str.lower()`. -/
def lowerStr (s : String) : String :=
  ⟨s.data.map toLowerChar⟩

/-- Python's substring test `needle in haystack` on character lists. -/
def hasSubstr (needle : List Char) : List Char → Bool
  | [] => needle.isEmpty
  | c :: rest => needle.isPrefixOf (c :: rest) || hasSubstr needle rest

/-- Python's `needle in haystack` on strings. -/
def pyIn (needle haystack : String) : Bool :=
  hasSubstr needle.data haystack.data

/-- `self.disease_keywords` (slr_pipeline.py lines 53-56), in insertion
order. -/
def disease_keywords : List (String × List String) :=
  [("type 2 diabetes",
      ["t2d", "t2dm", "type 2 diabetes", "niddm", "diabetes mellitus type 2"]),
   ("pcos", ["pcos", "polycystic ovary syndrome"])]

/-- `self.trial_keywords` (slr_pipeline.py lines 58-61). -/
def trial_keywords : List (String × List String) :=
  [("randomized controlled trial",
      ["rct", "randomized controlled trial", "randomized"]),
   ("clinical trial", ["clinical trial", "trial phase"])]

/-- The text `_screen_rules` screens: lowercased title and abstract joined by
a single space (slr_pipeline.py lines 105-107, `f"{title} {abstract}"`). -/
def screenText (study : Study) : String :=
  lowerStr (orEmpty study.title) ++ " " ++ lowerStr (orEmpty study.abstract)

/-- The `disease_match` loop of `_screen_rules` (slr_pipeline.py lines
109-114): true iff some keyword of some group of `disease_keywords` occurs in
the text.  The source loop breaks on first success, which computes the same
boolean.  Note the loop ranges over every keyword group; `criteria` does not
appear in it. -/
def disease_match (text : String) : Bool :=
  disease_keywords.any fun p => p.2.any fun kw => pyIn kw text

/-- The `trial_match` loop of `_screen_rules` (slr_pipeline.py lines
129-133). -/
def trial_match (text : String) : Bool :=
  trial_keywords.any fun p => p.2.any fun kw => pyIn kw text

/-- `_screen_rules` (slr_pipeline.py lines 99-157).  Although annotated
`Optional[ScreeningDecision]` in the source, every code path returns a
decision, so the embedding is total.  `criteria` is a parameter the source
receives and never reads. -/
def screen_rules (study : Study) (criteria : Criteria) : ScreeningDecision :=
  let text := screenText study
  if !(disease_match text) then
    { pmid := study.pmid, title := study.title, abstract := study.abstract,
      decision := "EXCLUDE", confidence := 95/100, layer := .rules,
      reasoning := "Does not match disease criteria",
      prisma_stage := "Screening" }
  else if !(trial_match text) then
    { pmid := study.pmid, title := study.title, abstract := study.abstract,
      decision := "EXCLUDE", confidence := 92/100, layer := .rules,
      reasoning := "Not a clinical trial", prisma_stage := "Screening" }
  else
    { pmid := study.pmid, title := study.title, abstract := study.abstract,
      decision := "INCLUDE", confidence := 90/100, layer := .rules,
      reasoning := "Matches disease and trial criteria",
      prisma_stage := "Inclusion" }

/-- `_screen_ml` (slr_pipeline.py lines 159-179).  The `ml_model` argument is
received but never invoked by the source (placeholder layer), so it may have
any type. -/
def screen_ml {α : Type} (study : Study) (current_decision : ScreeningDecision)
    (ml_model : α) : ScreeningDecision :=
  if current_decision.decision = "INCLUDE" then
    { pmid := study.pmid, title := study.title, abstract := study.abstract,
      decision := "INCLUDE", confidence := 92/100, layer := .ml,
      reasoning := "ML model: High likelihood of relevance",
      prisma_stage := current_decision.prisma_stage }
  else current_decision

/-- `_screen_bert` (slr_pipeline.py lines 181-189): a pass-through. -/
def screen_bert {β : Type} (study : Study)
    (current_decision : ScreeningDecision) (bert_model : β) :
    ScreeningDecision :=
  current_decision

/-- The decision-collecting loop of `screen_studies` (slr_pipeline.py lines
73-91).  A record whose rule decision is "EXCLUDE" is skipped by `continue`
(line 80) and contributes nothing to `self.decisions`; otherwise the optional
layers run (`if ml_model:` / `if bert_model and decision.decision !=
"EXCLUDE":`, Python truthiness modelled by `Option`) and the resulting
decision is appended.  The source method returns this list together with
`_compute_metrics()` applied to it (line 97). -/
def screen_studies {α β : Type} (studies : List Study) (criteria : Criteria)
    (ml_model : Option α) (bert_model : Option β) : List ScreeningDecision :=
  match studies with
  | [] => []
  | study :: rest =>
    let decision := screen_rules study criteria
    if decision.decision = "EXCLUDE" then
      screen_studies rest criteria ml_model bert_model
    else
      let decision₁ :=
        match ml_model with
        | some m => screen_ml study decision m
        | none => decision
      let decision₂ :=
        match bert_model with
        | some b =>
          if decision₁.decision ≠ "EXCLUDE" then screen_bert study decision₁ b
          else decision₁
        | none => decision₁
      decision₂ :: screen_studies rest criteria ml_model bert_model

/-- The final decision the `screen_studies` loop body computes for one record
that survives the Rule Gate (slr_pipeline.py lines 82-91). -/
def finalDecision {α β : Type} (study : Study) (criteria : Criteria)
    (ml_model : Option α) (bert_model : Option β) : ScreeningDecision :=
  let decision := screen_rules study criteria
  let decision₁ :=
    match ml_model with
    | some m => screen_ml study decision m
    | none => decision
  match bert_model with
  | some b =>
    if decision₁.decision ≠ "EXCLUDE" then screen_bert study decision₁ b
    else decision₁
  | none => decision₁

/-- One step of the instrumented `screen_studies` transcript: the last
decision the loop body computed for the record, whether the ML layer (the
`if ml_model:` block, slr_pipeline.py lines 83-84) executed for it, whether
the BERT layer (the `if bert_model and ...` block, lines 87-88) executed for
it, and whether the decision was appended to `self.decisions`. -/
structure StepTrace where
  finalDec : ScreeningDecision
  mlRan : Bool
  bertRan : Bool
  appended : Bool
deriving DecidableEq, Repr

/-- Instrumented transcript of the `screen_studies` loop (identical control
flow to slr_pipeline.py lines 75-91), recording one `StepTrace` per input
record in input order. -/
def screen_studies_trace {α β : Type} (studies : List Study)
    (criteria : Criteria) (ml_model : Option α) (bert_model : Option β) :
    List StepTrace :=
  match studies with
  | [] => []
  | study :: rest =>
    let decision := screen_rules study criteria
    if decision.decision = "EXCLUDE" then
      { finalDec := decision, mlRan := false, bertRan := false,
        appended := false } ::
        screen_studies_trace rest criteria ml_model bert_model
    else
      let decision₁ :=
        match ml_model with
        | some m => screen_ml study decision m
        | none => decision
      let decision₂ :=
        match bert_model with
        | some b =>
          if decision₁.decision ≠ "EXCLUDE" then screen_bert study decision₁ b
          else decision₁
        | none => decision₁
      { finalDec := decision₂, mlRan := ml_model.isSome,
        bertRan := bert_model.isSome && (decision₁.decision != "EXCLUDE"),
        appended := true } ::
        screen_studies_trace rest criteria ml_model bert_model

/-- Python's `int()` truncation toward zero, on exact rationals. -/
def pyInt (q : ℚ) : Int :=
  if 0 ≤ q then ⌊q⌋ else ⌈q⌉

/-- The `avg_confidence` expression of `_compute_metrics` (slr_pipeline.py
line 214): `sum(d.confidence ...) / len(...) if self.decisions else 0`. -/
def avg_confidence (decisions : List ScreeningDecision) : ℚ :=
  if decisions ≠ [] then
    (decisions.map (fun d => d.confidence)).sum / (decisions.length : ℚ)
  else 0

/-- `_compute_metrics` (slr_pipeline.py lines 191-229).  An empty decision
list yields the all-zero metrics (lines 193-207); otherwise every rate is
derived from the average confidence and the counts from `int()` truncations
of products with it (lines 209-229). -/
def compute_metrics (decisions : List ScreeningDecision) : SLRMetrics :=
  if decisions = [] then
    { total_retrieved := 0, total_screened := 0, total_included := 0,
      total_excluded := 0, precision := 0, «recall» := 0, f1_score := 0,
      accuracy := 0, true_positives := 0, false_positives := 0,
      true_negatives := 0, false_negatives := 0 }
  else
    let included : Int :=
      ((decisions.filter fun d => d.decision == "INCLUDE").length : Int)
    let excluded : Int :=
      ((decisions.filter fun d => d.decision == "EXCLUDE").length : Int)
    let total : Int := included + excluded
    let a : ℚ := avg_confidence decisions
    { total_retrieved := total, total_screened := total,
      total_included := included, total_excluded := excluded,
      precision := a,
      «recall» := min (97/100) (a + 5/100),
      f1_score := (2 * a * (a + 5/100)) / (a + a + 5/100),
      accuracy := a,
      true_positives := pyInt ((included : ℚ) * a),
      false_positives := pyInt ((excluded : ℚ) * (1 - a)),
      true_negatives := pyInt ((excluded : ℚ) * a),
      false_negatives := pyInt ((included : ℚ) * (1 - a)) }

/-- The explanation dict built by `SLRAgentController.explain_decision`
(agent_controller.py lines 183-193). -/
structure Explanation where
  study_id : String
  decision : String
  layer : String
  reasoning : String
  confidence : ℚ
  evidence : List String
deriving DecidableEq, Repr

/-- `SLRAgentController.explain_decision` (agent_controller.py lines
183-193): builds the explanation dict from its three string arguments alone;
it consults no decision set. -/
def explain_decision (study_id decision layer : String) : Explanation :=
  { study_id := study_id, decision := decision, layer := layer,
    reasoning := "Study " ++ study_id ++ " was " ++ decision ++ " at "
      ++ layer ++ " layer",
    confidence := 92/100, evidence := [] }

/-- Modelled from the spec, for comparison only (§4.3 ground-truth mode,
which has no counterpart in the source): precision computed from a
confusion-matrix comparison of each decision with an external gold label,
`precision = TP/(TP+FP)` (0 if the denominator is 0). -/
def spec_ground_truth_precision (decisions : List ScreeningDecision)
    (gold : List String) : ℚ :=
  let pairs := decisions.zip gold
  let tp : ℚ :=
    ((pairs.filter fun p =>
      p.1.decision == "INCLUDE" && p.2 == "INCLUDE").length : ℚ)
  let fp : ℚ :=
    ((pairs.filter fun p =>
      p.1.decision == "INCLUDE" && p.2 == "EXCLUDE").length : ℚ)
  if tp + fp = 0 then 0 else tp / (tp + fp)

-- Concrete records, mostly from the spec's end-to-end scenario A (§8).

/-- Scenario A record "1": an RCT of type 2 diabetes treatment. -/
def studyRCT : Study :=
  { pmid := some "1", title := some "RCT of type 2 diabetes treatment",
    abstract := some "" }

/-- Scenario A record "2": a cooking article, matching no disease keyword. -/
def studyCooking : Study :=
  { pmid := some "2", title := some "A cooking article", abstract := some "" }

/-- A record whose text matches only the pcos keyword group (and no
trial-type keyword). -/
def studyPcos : Study :=
  { pmid := some "3", title := some "pcos cohort", abstract := none }

/-- Scenario A criteria. -/
def criteriaA : Criteria :=
  { disease := some "type 2 diabetes",
    study_type := some "randomized controlled trial" }

/-- An always-failing scorer plugin in the sense of spec §4.2: its
`score(record, priorDecision)` signals a scoring failure on every call. -/
def failing_scorer : Study → ScreeningDecision → Except String ScreeningDecision :=
  fun _ _ => Except.error "scoring failure"

/-- A decision with confidence 1 (the maximum the claims allow). -/
def decConfOne : ScreeningDecision :=
  { pmid := some "9", title := none, abstract := none, decision := "INCLUDE",
    confidence := 1, layer := .rules, reasoning := "r",
    prisma_stage := "Inclusion" }

/-- A decision with confidence 0.9, as the Rule Gate emits on inclusion. -/
def decConf09 : ScreeningDecision :=
  { pmid := some "8", title := none, abstract := none, decision := "INCLUDE",
    confidence := 90/100, layer := .rules, reasoning := "r",
    prisma_stage := "Inclusion" }

/-- A successful scorer plugin: `score` returns the prior decision. -/
def succeeding_scorer : Study → ScreeningDecision → Except String ScreeningDecision :=
  fun _ d => Except.ok d

/-- `decConf09` with different provenance fields but the same decision string
and confidence. -/
def decConf09ml : ScreeningDecision :=
  { pmid := some "b", title := some "t", abstract := none,
    decision := "INCLUDE", confidence := 90/100, layer := .ml,
    reasoning := "other reasoning", prisma_stage := "Inclusion" }

-- Supporting lemmas.

/-- The Rule Gate emits only the two decision strings. -/
theorem screen_rules_decision_cases (study : Study) (criteria : Criteria) :
    (screen_rules study criteria).decision = "INCLUDE" ∨
      (screen_rules study criteria).decision = "EXCLUDE" := by
  simp only [screen_rules]
  split
  · exact Or.inr rfl
  · split
    · exact Or.inr rfl
    · exact Or.inl rfl

/-- Every Rule Gate decision is tagged with the RULES layer. -/
theorem screen_rules_layer (study : Study) (criteria : Criteria) :
    (screen_rules study criteria).layer = DecisionLayer.rules := by
  simp only [screen_rules]
  split
  · rfl
  · split <;> rfl

/-- `_screen_ml` never consults the model it is given. -/
theorem screen_ml_ignores_model {α : Type} (study : Study)
    (cur : ScreeningDecision) (f g : α) :
    screen_ml study cur f = screen_ml study cur g := rfl

/-- The collected decision list is the per-record final decision of every
record that survives the Rule Gate, kept in input order. -/
theorem screen_studies_eq_filter_map {α β : Type} (studies : List Study)
    (criteria : Criteria) (ml_model : Option α) (bert_model : Option β) :
    screen_studies studies criteria ml_model bert_model =
      (studies.filter fun s =>
        (screen_rules s criteria).decision != "EXCLUDE").map
        fun s => finalDecision s criteria ml_model bert_model := by
  induction studies with
  | nil => rfl
  | cons s rest ih =>
    by_cases h : (screen_rules s criteria).decision = "EXCLUDE"
    · simp [screen_studies, List.filter_cons, h, ih]
    · simp [screen_studies, List.filter_cons, h, ih, finalDecision]

/-- The per-record final decision keeps the record's pmid. -/
theorem finalDecision_pmid {α β : Type} (study : Study) (criteria : Criteria)
    (ml_model : Option α) (bert_model : Option β) :
    (finalDecision study criteria ml_model bert_model).pmid = study.pmid := by
  have hr : (screen_rules study criteria).pmid = study.pmid := by
    simp only [screen_rules]
    split
    · rfl
    · split <;> rfl
  have hm : ∀ m : α, (screen_ml study (screen_rules study criteria) m).pmid
      = study.pmid := by
    intro m
    simp only [screen_ml]
    split
    · rfl
    · exact hr
  cases ml_model with
  | none =>
    cases bert_model with
    | none => exact hr
    | some b =>
      simp only [finalDecision, screen_bert]
      split <;> exact hr
  | some m =>
    cases bert_model with
    | none => exact hm m
    | some b =>
      simp only [finalDecision, screen_bert]
      split <;> exact hm m

/-- What one iteration of the instrumented loop records for one study. -/
def traceStep {α β : Type} (study : Study) (criteria : Criteria)
    (ml_model : Option α) (bert_model : Option β) : StepTrace :=
  if (screen_rules study criteria).decision = "EXCLUDE" then
    { finalDec := screen_rules study criteria, mlRan := false,
      bertRan := false, appended := false }
  else
    let decision₁ :=
      match ml_model with
      | some m => screen_ml study (screen_rules study criteria) m
      | none => screen_rules study criteria
    { finalDec := finalDecision study criteria ml_model bert_model,
      mlRan := ml_model.isSome,
      bertRan := bert_model.isSome && (decision₁.decision != "EXCLUDE"),
      appended := true }

/-- The instrumented transcript records one step per input study, in input
order. -/
theorem screen_studies_trace_eq_map {α β : Type} (studies : List Study)
    (criteria : Criteria) (ml_model : Option α) (bert_model : Option β) :
    screen_studies_trace studies criteria ml_model bert_model =
      studies.map fun s => traceStep s criteria ml_model bert_model := by
  induction studies with
  | nil => rfl
  | cons s rest ih =>
    by_cases h : (screen_rules s criteria).decision = "EXCLUDE"
    · simp [screen_studies_trace, traceStep, h, ih]
    · simp [screen_studies_trace, traceStep, h, ih, finalDecision]

/-- The instrumentation is faithful: the collected decision list is exactly
the appended final decisions of the transcript. -/
theorem screen_studies_eq_trace {α β : Type} (studies : List Study)
    (criteria : Criteria) (ml_model : Option α) (bert_model : Option β) :
    screen_studies studies criteria ml_model bert_model =
      ((screen_studies_trace studies criteria ml_model bert_model).filter
        fun t => t.appended).map fun t => t.finalDec := by
  induction studies with
  | nil => rfl
  | cons s rest ih =>
    by_cases h : (screen_rules s criteria).decision = "EXCLUDE"
    · simp [screen_studies, screen_studies_trace, List.filter_cons, h, ih]
    · simp [screen_studies, screen_studies_trace, List.filter_cons, h, ih]

/-- C2: for every record and criteria, the Rule Gate performs this case
analysis on the lowercase title+abstract text: no disease keyword yields
EXCLUDE with confidence 0.95 and stage Screening; a disease keyword without a
trial-type keyword yields EXCLUDE with confidence 0.92 and stage Screening;
both yield INCLUDE with confidence 0.90 and stage Inclusion. -/
theorem rule_gate_case_analysis (study : Study) (criteria : Criteria) :
    (disease_match (screenText study) = false →
      screen_rules study criteria =
        { pmid := study.pmid, title := study.title,
          abstract := study.abstract, decision := "EXCLUDE",
          confidence := 95/100, layer := .rules,
          reasoning := "Does not match disease criteria",
          prisma_stage := "Screening" })
  ∧ (disease_match (screenText study) = true →
      trial_match (screenText study) = false →
      screen_rules study criteria =
        { pmid := study.pmid, title := study.title,
          abstract := study.abstract, decision := "EXCLUDE",
          confidence := 92/100, layer := .rules,
          reasoning := "Not a clinical trial",
          prisma_stage := "Screening" })
  ∧ (disease_match (screenText study) = true →
      trial_match (screenText study) = true →
      screen_rules study criteria =
        { pmid := study.pmid, title := study.title,
          abstract := study.abstract, decision := "INCLUDE",
          confidence := 90/100, layer := .rules,
          reasoning := "Matches disease and trial criteria",
          prisma_stage := "Inclusion" }) := by
  refine ⟨fun hd => ?_, fun hd ht => ?_, fun hd ht => ?_⟩
  · simp [screen_rules, hd]
  · simp [screen_rules, hd, ht]
  · simp [screen_rules, hd, ht]

/-- Witness for `rule_gate_case_analysis` at the concrete cooking-article
record: it matches no disease keyword and is excluded with confidence 0.95 at
stage Screening. -/
theorem rule_gate_case_analysis_witness :
    disease_match (screenText studyCooking) = false
  ∧ screen_rules studyCooking criteriaA =
      { pmid := some "2", title := some "A cooking article",
        abstract := some "", decision := "EXCLUDE", confidence := 95/100,
        layer := .rules, reasoning := "Does not match disease criteria",
        prisma_stage := "Screening" } :=
  ⟨by decide, (rule_gate_case_analysis studyCooking criteriaA).1 (by decide)⟩

/-- C3 counterexample: with `criteria.disease = "type 2 diabetes"`, a record
whose text contains a keyword of the pcos group only (and no keyword of the
type-2-diabetes group) nevertheless passes the disease-match gate — the gate
proceeds to the trial-type check instead of emitting the disease exclusion,
contradicting the claim that only the group matching `criteria.disease` may
make the gate pass. -/
theorem disease_gate_criteria_counterexample :
    criteriaA.disease = some "type 2 diabetes"
  ∧ ((disease_keywords.filter fun p => p.1 == "type 2 diabetes").all fun p =>
      p.2.all fun kw => !(pyIn kw (screenText studyPcos))) = true
  ∧ disease_match (screenText studyPcos) = true
  ∧ (screen_rules studyPcos criteriaA).reasoning = "Not a clinical trial" :=
  ⟨rfl, by decide, by decide, by decide⟩

/-- C3 (amended): the disease-match gate ignores `criteria` entirely — the
Rule Gate's output does not depend on the criteria value, and the gate passes
(no disease exclusion is emitted) iff some keyword from ANY keyword group
occurs in the text. -/
theorem disease_gate_ignores_criteria (study : Study) (c₁ c₂ : Criteria) :
    screen_rules study c₁ = screen_rules study c₂
  ∧ ((screen_rules study c₁).reasoning = "Does not match disease criteria" ↔
      disease_match (screenText study) = false) := by
  refine ⟨rfl, ?_⟩
  by_cases hd : disease_match (screenText study)
  · by_cases ht : trial_match (screenText study) <;>
      simp [screen_rules, hd, ht]
  · simp [screen_rules, hd]

/-- C1 counterexample: on a one-record input whose record is excluded by the
Rule Gate, `screen_studies` returns an empty decision list — the output
length differs from the input length, so there is not one Decision per input
record. -/
theorem run_length_counterexample :
    (screen_studies [studyCooking] criteriaA (none : Option Unit)
      (none : Option Unit)).length ≠ ([studyCooking] : List Study).length := by
  decide

/-- C1 (amended): `screen_studies` returns exactly one Decision per input
record that survives the Rule Gate, in input order (the filtered input
mapped through the per-record cascade), and each returned decision carries
the pmid of its source record; records excluded by the Rule Gate contribute
no element, so the output can be shorter than the input. -/
theorem run_output_per_surviving_record {α β : Type} (studies : List Study)
    (criteria : Criteria) (ml_model : Option α) (bert_model : Option β) :
    screen_studies studies criteria ml_model bert_model =
      (studies.filter fun s =>
        (screen_rules s criteria).decision != "EXCLUDE").map
        (fun s => finalDecision s criteria ml_model bert_model)
  ∧ ∀ s ∈ studies,
      (finalDecision s criteria ml_model bert_model).pmid = s.pmid :=
  ⟨screen_studies_eq_filter_map studies criteria ml_model bert_model,
   fun s _ => finalDecision_pmid s criteria ml_model bert_model⟩

/-- Witness for `run_output_per_surviving_record` on scenario A's records
with an ML plugin attached: the cooking article is dropped, the RCT record
survives with its pmid preserved. -/
theorem run_output_per_surviving_record_witness :
    screen_studies [studyRCT, studyCooking] criteriaA (some ())
      (none : Option Unit) =
      [finalDecision studyRCT criteriaA (some ()) (none : Option Unit)]
  ∧ (finalDecision studyRCT criteriaA (some ())
      (none : Option Unit)).pmid = studyRCT.pmid := by
  have h := run_output_per_surviving_record [studyRCT, studyCooking]
    criteriaA (some ()) (none : Option Unit)
  exact ⟨h.1.trans (by rfl), h.2 studyRCT (by decide)⟩

/-- C4: for every record whose Rule Gate decision is EXCLUDE, in a run with
any ML and/or semantic plugin attached, the instrumented transcript shows
that neither the ML layer nor the BERT layer ever executed for that record
and that the last decision computed for it is exactly the Rule Gate's
EXCLUDE decision (it is recorded unmodified and not appended — later layers
are never invoked for it). -/
theorem rules_exclusion_short_circuit {α β : Type} (studies : List Study)
    (criteria : Criteria) (ml_model : Option α) (bert_model : Option β)
    (i : Nat) (s : Study) (hs : studies[i]? = some s)
    (hex : (screen_rules s criteria).decision = "EXCLUDE") :
    (screen_studies_trace studies criteria ml_model bert_model)[i]? =
      some { finalDec := screen_rules s criteria, mlRan := false,
             bertRan := false, appended := false } := by
  rw [screen_studies_trace_eq_map, List.getElem?_map, hs]
  simp [traceStep, hex]

/-- Witness for `rules_exclusion_short_circuit`: the cooking article is
rule-excluded, and with both plugins attached its transcript entry shows no
ML or BERT execution and the unchanged Rule Gate decision. -/
theorem rules_exclusion_short_circuit_witness :
    ([studyCooking][0]? = some studyCooking)
  ∧ (screen_rules studyCooking criteriaA).decision = "EXCLUDE"
  ∧ (screen_studies_trace [studyCooking] criteriaA (some ()) (some ()))[0]? =
      some { finalDec := screen_rules studyCooking criteriaA, mlRan := false,
             bertRan := false, appended := false } :=
  ⟨rfl, by decide,
   rules_exclusion_short_circuit [studyCooking] criteriaA (some ()) (some ())
     0 studyCooking rfl (by decide)⟩

/-- C5 counterexample: attaching an always-failing scorer plugin does NOT
yield the same decisions as a Rule-Gate-only run — the run with the plugin
attached differs from the run without it on a record that passes the Rule
Gate, so the prior layer's decision is not retained unchanged. -/
theorem plugin_failure_counterexample :
    screen_studies [studyRCT] criteriaA (some failing_scorer)
      (none : Option Unit) ≠
    screen_studies [studyRCT] criteriaA
      (none : Option (Study → ScreeningDecision →
        Except String ScreeningDecision)) (none : Option Unit) := by
  intro h
  have h2 := congrArg (List.map fun d => d.layer) h
  revert h2
  decide

/-- C5 (amended): the orchestrator never aborts on a failing plugin only
because it never invokes the plugin at all — the run's output is independent
of the attached scorer's behaviour.  But the prior layer's decision is NOT
retained: every record that passes the Rule Gate has its decision replaced by
the fixed ML-layer decision with confidence 0.92, so a run with a plugin
attached (failing or not) differs from a Rule-Gate-only run. -/
theorem plugin_failure_noop_amended {α : Type} (studies : List Study)
    (criteria : Criteria) (f g : α) :
    screen_studies studies criteria (some f) (none : Option Unit) =
      screen_studies studies criteria (some g) (none : Option Unit)
  ∧ ∀ s ∈ studies, (screen_rules s criteria).decision ≠ "EXCLUDE" →
      (finalDecision s criteria (some f) (none : Option Unit)).layer =
          DecisionLayer.ml
      ∧ (finalDecision s criteria (some f)
          (none : Option Unit)).confidence = 92/100
      ∧ (screen_rules s criteria).layer = DecisionLayer.rules := by
  constructor
  · induction studies with
    | nil => rfl
    | cons s rest ih =>
      by_cases h : (screen_rules s criteria).decision = "EXCLUDE"
      · simp [screen_studies, h, ih]
      · simp [screen_studies, h, ih, screen_ml_ignores_model s
          (screen_rules s criteria) f g]
  · intro s _ hne
    have hinc : (screen_rules s criteria).decision = "INCLUDE" :=
      (screen_rules_decision_cases s criteria).resolve_right hne
    refine ⟨?_, ?_, screen_rules_layer s criteria⟩ <;>
      simp [finalDecision, screen_ml, hinc]

/-- Witness for `plugin_failure_noop_amended`: on the RCT record, a run with
the always-failing scorer equals a run with an always-succeeding scorer, and
the surviving record's decision is replaced by the ML-layer decision. -/
theorem plugin_failure_noop_amended_witness :
    screen_studies [studyRCT] criteriaA (some failing_scorer)
      (none : Option Unit) =
      screen_studies [studyRCT] criteriaA (some succeeding_scorer)
        (none : Option Unit)
  ∧ (screen_rules studyRCT criteriaA).decision ≠ "EXCLUDE"
  ∧ (finalDecision studyRCT criteriaA (some failing_scorer)
      (none : Option Unit)).layer = DecisionLayer.ml := by
  have h := plugin_failure_noop_amended [studyRCT] criteriaA
    failing_scorer succeeding_scorer
  exact ⟨h.1, by decide, (h.2 studyRCT (by decide) (by decide)).1⟩

/-- C10: with no ML plugin and no semantic plugin attached, the decision list
returned by `screen_studies` is the Rule Gate decision of every record that
survives the Rule Gate, in input order — so records excluded by the Rule Gate
contribute no element at all, and every returned decision is INCLUDE. -/
theorem no_plugin_all_included {α β : Type} (studies : List Study)
    (criteria : Criteria) :
    screen_studies studies criteria (none : Option α) (none : Option β) =
      (studies.filter fun s =>
        (screen_rules s criteria).decision != "EXCLUDE").map
        (fun s => screen_rules s criteria)
  ∧ ∀ d ∈ screen_studies studies criteria (none : Option α)
      (none : Option β), d.decision = "INCLUDE" := by
  have he : screen_studies studies criteria (none : Option α)
      (none : Option β) =
      (studies.filter fun s =>
        (screen_rules s criteria).decision != "EXCLUDE").map
        (fun s => screen_rules s criteria) :=
    screen_studies_eq_filter_map studies criteria none none
  refine ⟨he, ?_⟩
  intro d hd
  rw [he] at hd
  obtain ⟨s, hs, rfl⟩ := List.mem_map.mp hd
  have hne : (screen_rules s criteria).decision ≠ "EXCLUDE" := by
    have := (List.mem_filter.mp hs).2
    simpa [bne_iff_ne] using this
  exact (screen_rules_decision_cases s criteria).resolve_right hne

/-- Witness for `no_plugin_all_included` on scenario A's records: the run
returns exactly the RCT record's Rule Gate decision, which is INCLUDE. -/
theorem no_plugin_all_included_witness :
    screen_studies [studyRCT, studyCooking] criteriaA (none : Option Unit)
      (none : Option Unit) = [screen_rules studyRCT criteriaA]
  ∧ (screen_rules studyRCT criteriaA).decision = "INCLUDE" := by
  have h := no_plugin_all_included (α := Unit) (β := Unit)
    [studyRCT, studyCooking] criteriaA
  have he : screen_studies [studyRCT, studyCooking] criteriaA
      (none : Option Unit) (none : Option Unit) =
      [screen_rules studyRCT criteriaA] := h.1.trans (by rfl)
  refine ⟨he, h.2 (screen_rules studyRCT criteriaA) ?_⟩
  rw [he]
  exact List.mem_singleton_self _

/-- Evaluation of `_compute_metrics` on a non-empty decision list. -/
theorem compute_metrics_nonempty (decisions : List ScreeningDecision)
    (h : decisions ≠ []) :
    compute_metrics decisions =
      { total_retrieved :=
          ((decisions.filter fun d => d.decision == "INCLUDE").length : Int) +
          ((decisions.filter fun d => d.decision == "EXCLUDE").length : Int),
        total_screened :=
          ((decisions.filter fun d => d.decision == "INCLUDE").length : Int) +
          ((decisions.filter fun d => d.decision == "EXCLUDE").length : Int),
        total_included :=
          ((decisions.filter fun d => d.decision == "INCLUDE").length : Int),
        total_excluded :=
          ((decisions.filter fun d => d.decision == "EXCLUDE").length : Int),
        precision := avg_confidence decisions,
        «recall» := min (97/100) (avg_confidence decisions + 5/100),
        f1_score :=
          (2 * avg_confidence decisions * (avg_confidence decisions + 5/100)) /
            (avg_confidence decisions + avg_confidence decisions + 5/100),
        accuracy := avg_confidence decisions,
        true_positives := pyInt
          ((((decisions.filter fun d => d.decision == "INCLUDE").length : Int) : ℚ)
            * avg_confidence decisions),
        false_positives := pyInt
          ((((decisions.filter fun d => d.decision == "EXCLUDE").length : Int) : ℚ)
            * (1 - avg_confidence decisions)),
        true_negatives := pyInt
          ((((decisions.filter fun d => d.decision == "EXCLUDE").length : Int) : ℚ)
            * avg_confidence decisions),
        false_negatives := pyInt
          ((((decisions.filter fun d => d.decision == "INCLUDE").length : Int) : ℚ)
            * (1 - avg_confidence decisions)) } := by
  simp [compute_metrics, h]

/-- `int()` truncation of a non-negative rational is non-negative. -/
theorem pyInt_nonneg (q : ℚ) (h : 0 ≤ q) : 0 ≤ pyInt q := by
  rw [pyInt, if_pos h]
  exact Int.floor_nonneg.mpr h

/-- The average confidence of decisions with confidences in `[0, 1]` lies in
`[0, 1]`. -/
theorem avg_confidence_bounds (decisions : List ScreeningDecision)
    (h : ∀ d ∈ decisions, 0 ≤ d.confidence ∧ d.confidence ≤ 1) :
    0 ≤ avg_confidence decisions ∧ avg_confidence decisions ≤ 1 := by
  by_cases hd : decisions = []
  · subst hd
    simp [avg_confidence]
  · have hlen : (0 : ℚ) < (decisions.length : ℚ) := by
      have := List.length_pos.mpr hd
      exact_mod_cast this
    have hsum0 : 0 ≤ (decisions.map fun d => d.confidence).sum := by
      apply List.sum_nonneg
      intro x hx
      obtain ⟨d, hdm, rfl⟩ := List.mem_map.mp hx
      exact (h d hdm).1
    have hsum1 : (decisions.map fun d => d.confidence).sum ≤
        (decisions.length : ℚ) := by
      have := List.sum_le_card_nsmul (decisions.map fun d => d.confidence) 1
        (by
          intro x hx
          obtain ⟨d, hdm, rfl⟩ := List.mem_map.mp hx
          exact (h d hdm).2)
      simpa [List.length_map, nsmul_eq_mul] using this
    rw [avg_confidence, if_pos hd]
    constructor
    · exact div_nonneg hsum0 (le_of_lt hlen)
    · rw [div_le_one hlen]
      exact hsum1

/-- C6 counterexample: a single decision with confidence 1 (which lies in
`[0, 1]`) yields `f1_score = 42/41 > 1`, violating the claim that all four
rate fields lie in `[0, 1]`. -/
theorem metrics_f1_exceeds_one :
    (0 ≤ decConfOne.confidence ∧ decConfOne.confidence ≤ 1)
  ∧ 1 < (compute_metrics [decConfOne]).f1_score := by
  constructor
  · constructor <;> norm_num [decConfOne]
  · rw [compute_metrics_nonempty [decConfOne] (by simp)]
    have ha : avg_confidence [decConfOne] = 1 := by
      norm_num [avg_confidence, decConfOne]
    simp only [ha]
    norm_num

/-- C6 (amended): for decisions with all confidences in `[0, 1]`, the Metrics
value satisfies `total_included + total_excluded = total_screened`, all
counts are non-negative, `precision`, `recall` and `accuracy` lie in
`[0, 1]`, and `f1_score` lies in `[0, 42/41]` — it can exceed 1 (see
`metrics_f1_exceeds_one`) but stays within `[0, 1]` whenever the average
confidence is at most 0.97; the empty decision list yields the all-zero
Metrics with no division by zero. -/
theorem metrics_invariants_amended (decisions : List ScreeningDecision)
    (h : ∀ d ∈ decisions, 0 ≤ d.confidence ∧ d.confidence ≤ 1) :
    (compute_metrics decisions).total_included +
        (compute_metrics decisions).total_excluded =
      (compute_metrics decisions).total_screened
  ∧ 0 ≤ (compute_metrics decisions).total_included
  ∧ 0 ≤ (compute_metrics decisions).total_excluded
  ∧ 0 ≤ (compute_metrics decisions).true_positives
  ∧ 0 ≤ (compute_metrics decisions).false_positives
  ∧ 0 ≤ (compute_metrics decisions).true_negatives
  ∧ 0 ≤ (compute_metrics decisions).false_negatives
  ∧ (0 ≤ (compute_metrics decisions).precision ∧
      (compute_metrics decisions).precision ≤ 1)
  ∧ (0 ≤ (compute_metrics decisions).«recall» ∧
      (compute_metrics decisions).«recall» ≤ 1)
  ∧ (0 ≤ (compute_metrics decisions).accuracy ∧
      (compute_metrics decisions).accuracy ≤ 1)
  ∧ (0 ≤ (compute_metrics decisions).f1_score ∧
      (compute_metrics decisions).f1_score ≤ 42/41)
  ∧ (avg_confidence decisions ≤ 97/100 →
      (compute_metrics decisions).f1_score ≤ 1)
  ∧ compute_metrics [] =
      { total_retrieved := 0, total_screened := 0, total_included := 0,
        total_excluded := 0, precision := 0, «recall» := 0, f1_score := 0,
        accuracy := 0, true_positives := 0, false_positives := 0,
        true_negatives := 0, false_negatives := 0 } := by
  by_cases hd : decisions = []
  · subst hd
    refine ⟨rfl, le_refl 0, le_refl 0, le_refl 0, le_refl 0, le_refl 0,
      le_refl 0, ⟨le_refl 0, ?_⟩, ⟨le_refl 0, ?_⟩, ⟨le_refl 0, ?_⟩,
      ⟨le_refl 0, ?_⟩, fun _ => ?_, rfl⟩ <;> norm_num [compute_metrics]
  · obtain ⟨ha0, ha1⟩ := avg_confidence_bounds decisions h
    rw [compute_metrics_nonempty decisions hd]
    set a := avg_confidence decisions with hadef
    have hdenom : (0 : ℚ) < a + a + 5/100 := by linarith
    have hincl0 : (0 : ℚ) ≤
        (((decisions.filter fun d => d.decision == "INCLUDE").length : Int) : ℚ) := by
      positivity
    have hexcl0 : (0 : ℚ) ≤
        (((decisions.filter fun d => d.decision == "EXCLUDE").length : Int) : ℚ) := by
      positivity
    refine ⟨rfl, Int.natCast_nonneg _, Int.natCast_nonneg _, ?_, ?_, ?_, ?_,
      ⟨ha0, ha1⟩, ⟨?_, ?_⟩, ⟨ha0, ha1⟩, ⟨?_, ?_⟩, fun hle => ?_, rfl⟩
    · exact pyInt_nonneg _ (mul_nonneg hincl0 ha0)
    · exact pyInt_nonneg _ (mul_nonneg hexcl0 (by linarith))
    · exact pyInt_nonneg _ (mul_nonneg hexcl0 ha0)
    · exact pyInt_nonneg _ (mul_nonneg hincl0 (by linarith))
    · exact le_min (by norm_num) (by linarith)
    · exact le_trans (min_le_left _ _) (by norm_num)
    · exact div_nonneg (by nlinarith) (le_of_lt hdenom)
    · rw [div_le_iff₀ hdenom]
      nlinarith [mul_nonneg (sub_nonneg.mpr ha1)
        (show (0:ℚ) ≤ 820 * a + 21 by linarith)]
    · rw [div_le_one hdenom]
      nlinarith [mul_le_mul_of_nonneg_left hle (show (0:ℚ) ≤ 40 * a by linarith)]

/-- Witness for `metrics_invariants_amended` at a single decision of
confidence 0.9: the totals balance and `f1_score ≤ 1` (the average
confidence, 0.9, is below the 0.97 threshold). -/
theorem metrics_invariants_amended_witness :
    (0 ≤ decConf09.confidence ∧ decConf09.confidence ≤ 1)
  ∧ (compute_metrics [decConf09]).total_included +
        (compute_metrics [decConf09]).total_excluded =
      (compute_metrics [decConf09]).total_screened
  ∧ (compute_metrics [decConf09]).f1_score ≤ 1 := by
  have hconf : ∀ d ∈ [decConf09], 0 ≤ d.confidence ∧ d.confidence ≤ 1 := by
    intro d hd
    rw [List.mem_singleton] at hd
    subst hd
    constructor <;> norm_num [decConf09]
  have h := metrics_invariants_amended [decConf09] hconf
  have havg : avg_confidence [decConf09] ≤ 97/100 := by
    norm_num [avg_confidence, decConf09]
  exact ⟨hconf decConf09 (List.mem_singleton_self _), h.1,
    h.2.2.2.2.2.2.2.2.2.2.2.1 havg⟩

/-- C7: on every non-empty decision list the aggregator returns
`precision = average confidence` and
`recall = min(0.97, average confidence + 0.05)`. -/
theorem estimated_precision_recall (decisions : List ScreeningDecision)
    (h : decisions ≠ []) :
    (compute_metrics decisions).precision = avg_confidence decisions
  ∧ (compute_metrics decisions).«recall» =
      min (97/100) (avg_confidence decisions + 5/100) := by
  rw [compute_metrics_nonempty decisions h]
  exact ⟨rfl, rfl⟩

/-- Witness for `estimated_precision_recall` at a single decision of
confidence 0.9: precision is the average confidence, which is 0.9. -/
theorem estimated_precision_recall_witness :
    ([decConf09] : List ScreeningDecision) ≠ []
  ∧ (compute_metrics [decConf09]).precision = avg_confidence [decConf09]
  ∧ avg_confidence [decConf09] = 90/100 :=
  ⟨by simp, (estimated_precision_recall [decConf09] (by simp)).1,
   by norm_num [avg_confidence, decConf09]⟩

/-- C8 counterexample: on a single INCLUDE decision of confidence 0.9 the
aggregator reports precision 0.9, which differs from the spec's ground-truth
precision under either possible gold label for that record — so the returned
value is an estimate, and nothing in `SLRMetrics` (which has only the twelve
numeric fields) marks it as such. -/
theorem metrics_no_mode_counterexample :
    (compute_metrics [decConf09]).precision ≠
      spec_ground_truth_precision [decConf09] ["INCLUDE"]
  ∧ (compute_metrics [decConf09]).precision ≠
      spec_ground_truth_precision [decConf09] ["EXCLUDE"] := by
  have hp : (compute_metrics [decConf09]).precision = 9/10 := by
    rw [compute_metrics_nonempty [decConf09] (by simp)]
    norm_num [avg_confidence, decConf09]
  have t1 : (([decConf09].zip ["INCLUDE"]).filter fun p =>
      p.1.decision == "INCLUDE" && p.2 == "INCLUDE").length = 1 := by decide
  have t2 : (([decConf09].zip ["INCLUDE"]).filter fun p =>
      p.1.decision == "INCLUDE" && p.2 == "EXCLUDE").length = 0 := by decide
  have t3 : (([decConf09].zip ["EXCLUDE"]).filter fun p =>
      p.1.decision == "INCLUDE" && p.2 == "INCLUDE").length = 0 := by decide
  have t4 : (([decConf09].zip ["EXCLUDE"]).filter fun p =>
      p.1.decision == "INCLUDE" && p.2 == "EXCLUDE").length = 1 := by decide
  have e1 : spec_ground_truth_precision [decConf09] ["INCLUDE"] = 1 := by
    simp only [spec_ground_truth_precision, t1, t2]
    norm_num
  have e2 : spec_ground_truth_precision [decConf09] ["EXCLUDE"] = 0 := by
    simp only [spec_ground_truth_precision, t3, t4]
    norm_num
  rw [hp, e1, e2]
  constructor <;> norm_num

/-- C8 (amended): the aggregator implements a single (estimated) mode: its
output is a function of the decisions' decision-strings and confidences
alone — it consumes no gold labels, so no input can produce ground-truth-mode
figures — and on non-empty input the precision field carries the estimated
value (the average confidence).  The returned `SLRMetrics` value carries no
mode flag. -/
theorem metrics_single_mode (ds₁ ds₂ : List ScreeningDecision)
    (h : ds₁.map (fun d => (d.decision, d.confidence)) =
      ds₂.map (fun d => (d.decision, d.confidence))) :
    compute_metrics ds₁ = compute_metrics ds₂
  ∧ (ds₁ ≠ [] → (compute_metrics ds₁).precision = avg_confidence ds₁) := by
  have hlen : ds₁.length = ds₂.length := by
    have := congrArg List.length h
    simpa using this
  have hsum : (ds₁.map fun d => d.confidence).sum =
      (ds₂.map fun d => d.confidence).sum := by
    have h₁ : (ds₁.map fun d => d.confidence) =
        (ds₁.map fun d => (d.decision, d.confidence)).map Prod.snd := by
      rw [List.map_map]
      rfl
    have h₂ : (ds₂.map fun d => d.confidence) =
        (ds₂.map fun d => (d.decision, d.confidence)).map Prod.snd := by
      rw [List.map_map]
      rfl
    rw [h₁, h₂, h]
  have havg : avg_confidence ds₁ = avg_confidence ds₂ := by
    rw [avg_confidence, avg_confidence, hsum, hlen]
    by_cases h₁ : ds₁ = []
    · subst h₁
      have : ds₂ = [] := by
        have := hlen.symm
        simpa [List.length_eq_zero] using this
      simp [this]
    · have h₂ : ds₂ ≠ [] := by
        intro hc
        subst hc
        exact h₁ (by simpa [List.length_eq_zero] using hlen)
      simp [h₁, h₂]
  have hcount : ∀ v : String,
      (ds₁.filter fun d => d.decision == v).length =
        (ds₂.filter fun d => d.decision == v).length := by
    intro v
    have c₁ : (ds₁.filter fun d => d.decision == v).length =
        ((ds₁.map fun d => (d.decision, d.confidence)).filter
          fun p => p.1 == v).length := by
      rw [← List.countP_eq_length_filter, ← List.countP_eq_length_filter,
        List.countP_map]
      rfl
    have c₂ : (ds₂.filter fun d => d.decision == v).length =
        ((ds₂.map fun d => (d.decision, d.confidence)).filter
          fun p => p.1 == v).length := by
      rw [← List.countP_eq_length_filter, ← List.countP_eq_length_filter,
        List.countP_map]
      rfl
    rw [c₁, c₂, h]
  constructor
  · by_cases h₁ : ds₁ = []
    · have h₂ : ds₂ = [] := by
        subst h₁
        have := hlen.symm
        simpa [List.length_eq_zero] using this
      rw [h₁, h₂]
    · have h₂ : ds₂ ≠ [] := by
        intro hc
        subst hc
        exact h₁ (by simpa [List.length_eq_zero] using hlen)
      rw [compute_metrics_nonempty ds₁ h₁, compute_metrics_nonempty ds₂ h₂,
        havg, hcount "INCLUDE", hcount "EXCLUDE"]
  · intro h₁
    rw [compute_metrics_nonempty ds₁ h₁]

/-- Witness for `metrics_single_mode`: two singleton decision lists that
agree on decision string and confidence but differ in pmid, title, layer,
reasoning and prisma stage produce identical `SLRMetrics` values — the
returned value retains no trace of anything else. -/
theorem metrics_single_mode_witness :
    ([decConf09].map (fun d => (d.decision, d.confidence)) =
      [decConf09ml].map (fun d => (d.decision, d.confidence)))
  ∧ compute_metrics [decConf09] = compute_metrics [decConf09ml] :=
  ⟨rfl, (metrics_single_mode [decConf09] [decConf09ml] rfl).1⟩

/-- C9 counterexample: after a run whose final decision set is empty (the
cooking article is rule-excluded, so no decision at all is retained for id
"2"), `explain_decision` still returns a fully fabricated Explanation for
that id — hard-coded confidence 0.92, templated reasoning, empty evidence —
rather than any "not found" report. -/
theorem explain_fabricated_counterexample :
    screen_studies [studyCooking] criteriaA (none : Option Unit)
      (none : Option Unit) = []
  ∧ explain_decision "2" "EXCLUDE" "rules" =
      { study_id := "2", decision := "EXCLUDE", layer := "rules",
        reasoning := "Study 2 was EXCLUDE at rules layer",
        confidence := 92/100, evidence := [] } :=
  ⟨rfl, rfl⟩

/-- C9 (amended): `explain_decision` consults no decision set at all — its
output is built from its three string arguments alone, with the same
hard-coded confidence 0.92 and empty evidence for every study id (known or
unknown), and a reasoning string that merely echoes the arguments; it never
reports a "not found" condition. -/
theorem explain_always_fabricates (sid₁ sid₂ dec lay : String) :
    (explain_decision sid₁ dec lay).confidence =
      (explain_decision sid₂ dec lay).confidence
  ∧ (explain_decision sid₁ dec lay).confidence = 92/100
  ∧ (explain_decision sid₁ dec lay).evidence = []
  ∧ (explain_decision sid₁ dec lay).reasoning =
      "Study " ++ sid₁ ++ " was " ++ dec ++ " at " ++ lay ++ " layer" :=
  ⟨rfl, rfl, rfl, rfl⟩
